import Mathlib

/-!
Shallow embedding of
`src/integrations/langfuse/src/haystack_integrations/tracing/langfuse/tracer.py`
(the Langfuse tracing bridge for Haystack), together with theorems settling
the specification claims about it.

Modelling conventions:
* Python dictionaries become association lists `List (String × α)` with
  first-match lookup and in-place replacement on assignment.
* The opaque Langfuse backend handles are write-only from the adapter's
  perspective; every backend mutation is recorded as a `BackendCall` value in
  an effect list, in program order.
* External helpers that the spec places out of scope
  (`tracing_utils.coerce_tag_value`, `ChatMessage.to_openai_dict_format`,
  `datetime.fromisoformat`) are passed in as function parameters
  (`coerce`, `conv`, `parse`); `parse s = none` models
  `datetime.fromisoformat` raising `ValueError` on `s`.
* Dynamic typing: the embedding models the data shapes the adapter actually
  receives from the host framework (tag payloads that are dictionaries,
  message lists whose elements are `ChatMessage` objects, string metadata
  fields).  Where CPython would raise a `TypeError`/`AttributeError` on other
  shapes, the corresponding operation is modelled with `Option` (`none` =
  the exception propagates) or is restricted by pattern matching, as noted
  at each definition.
-/

namespace LangfuseTracing

/-- JSON-like metadata values (the contents of `ChatMessage.meta`): null,
booleans, integers, strings, lists and string-keyed dictionaries. -/
inductive JVal where
  | jnull
  | jbool (b : Bool)
  | jint (n : Int)
  | jstr (s : String)
  | jlist (xs : List JVal)
  | jdict (kvs : List (String × JVal))

/-- Lookup in a Python dictionary modelled as an association list:
`d.get(key)`, returning `none` when the key is absent. -/
def dictGet {α : Type} : List (String × α) → String → Option α
  | [], _ => none
  | (k, v) :: rest, key => if k = key then some v else dictGet rest key

/-- `d.get(key, default)`. -/
def dictGetD {α : Type} (d : List (String × α)) (key : String) (dflt : α) : α :=
  (dictGet d key).getD dflt

/-- Python dictionary assignment `d[key] = v`: replaces the value of an
existing key in place, otherwise appends the new pair. -/
def dictSet {α : Type} : List (String × α) → String → α → List (String × α)
  | [], key, v => [(key, v)]
  | (k, w) :: rest, key, v =>
      if k = key then (key, v) :: rest else (k, w) :: dictSet rest key v

/-- Python truthiness of a `JVal` (`bool(x)`). -/
def JVal.truthy : JVal → Bool
  | .jnull => false
  | .jbool b => b
  | .jint n => n != 0
  | .jstr s => s != ""
  | .jlist xs => !xs.isEmpty
  | .jdict kvs => !kvs.isEmpty

/-- One tool call carried by a chat message; only the `tool_name` field is
read by the tracer (`call.tool_name` at line 300 of `tracer.py`). -/
structure ToolCall where
  tool_name : String

/-- The slice of `haystack.dataclasses.ChatMessage` the tracer reads: its
`meta` dictionary and its `tool_calls` list (empty when the message carries
no tool call, matching the falsiness test `if ... and message.tool_calls`). -/
structure ChatMessage where
  meta : List (String × JVal)
  tool_calls : List ToolCall

/-- Python values stored in span tag caches: `None`, booleans, integers,
strings, `ChatMessage` objects, lists and string-keyed dictionaries. -/
inductive Value where
  | vnone
  | vbool (b : Bool)
  | vint (n : Int)
  | vstr (s : String)
  | vmsg (m : ChatMessage)
  | vlist (xs : List Value)
  | vdict (kvs : List (String × Value))

/-- Python truthiness of a `Value`; arbitrary objects such as `ChatMessage`
are truthy. -/
def Value.truthy : Value → Bool
  | .vnone => false
  | .vbool b => b
  | .vint n => n != 0
  | .vstr s => s != ""
  | .vmsg _ => true
  | .vlist xs => !xs.isEmpty
  | .vdict kvs => !kvs.isEmpty

/-- Subscript `v[key]` on a dictionary value; `none` for a missing key or a
non-dictionary shape. -/
def Value.getKey : Value → String → Option Value
  | .vdict kvs, k => dictGet kvs k
  | _, _ => none

/-- Membership test `key in v`.  The adapter only applies it to dictionary
payloads (component/pipeline input and output tags); for those Python checks
key membership, which is what is modelled here. -/
def Value.hasKey (v : Value) (k : String) : Bool :=
  (v.getKey k).isSome

/-- Well-known Haystack tag keys (lines 54-61 of `tracer.py`). -/
def PIPELINE_INPUT_KEY : String := "haystack.pipeline.input_data"

def PIPELINE_OUTPUT_KEY : String := "haystack.pipeline.output_data"

def COMPONENT_NAME_KEY : String := "haystack.component.name"

def COMPONENT_TYPE_KEY : String := "haystack.component.type"

def COMPONENT_OUTPUT_KEY : String := "haystack.component.output"

def COMPONENT_INPUT_KEY : String := "haystack.component.input"

/-- `_SUPPORTED_GENERATORS` (lines 31-39). -/
def SUPPORTED_GENERATORS : List String :=
  ["AzureOpenAIGenerator", "OpenAIGenerator", "AnthropicGenerator",
   "HuggingFaceAPIGenerator", "HuggingFaceLocalGenerator", "CohereGenerator",
   "OllamaGenerator"]

/-- `_SUPPORTED_CHAT_GENERATORS` (lines 40-49). -/
def SUPPORTED_CHAT_GENERATORS : List String :=
  ["AzureOpenAIChatGenerator", "OpenAIChatGenerator", "AnthropicChatGenerator",
   "HuggingFaceAPIChatGenerator", "HuggingFaceLocalChatGenerator",
   "CohereChatGenerator", "OllamaChatGenerator", "GoogleGenAIChatGenerator"]

/-- `_ALL_SUPPORTED_GENERATORS = _SUPPORTED_GENERATORS + _SUPPORTED_CHAT_GENERATORS`. -/
def ALL_SUPPORTED_GENERATORS : List String :=
  SUPPORTED_GENERATORS ++ SUPPORTED_CHAT_GENERATORS

/-- Membership `component_type in <list>` where `component_type` is
`Optional[str]`; `None` is never an element of the registries. -/
def ctIn (ct : Option String) (l : List String) : Bool :=
  match ct with
  | some s => l.contains s
  | none => false

/-- The `completion_start_time` argument finally passed to the backend
`update` call by the chat-generator enrichment rule: a parsed timestamp, a
raw (unparsed) metadata value forwarded unchanged, or Python `None`. -/
inductive CstOut where
  | dt (d : Nat)
  | raw (j : JVal)
  | pyNone

/-- One mutation call issued to the opaque Langfuse backend handle, in the
order the adapter issues them. -/
inductive BackendCall where
  | updateMetadata (key : String) (value : Value)
  | updateInput (input : Value)
  | updateOutput (output : Value)
  | updateInOut (input output : Value)
  | updateName (name : String)
  | updateUsageModel (usage : Option Value) (model : Option Value)
  | updateGeneration (usage : Option JVal) (model : Option JVal)
      (completion_start_time : CstOut)

/-- `LangfuseSpan`: the locally cached tag dictionary `self._data` plus the
write-only backend handle, represented by the list of update calls issued on
it so far. -/
structure LangfuseSpan where
  data : List (String × Value)
  calls : List BackendCall

/-- `LangfuseSpan.set_tag` (lines 83-92): forward the coerced value to the
backend as metadata and record the raw value in the cache. -/
def LangfuseSpan.set_tag (coerce : Value → Value) (sp : LangfuseSpan)
    (key : String) (value : Value) : LangfuseSpan :=
  { data := dictSet sp.data key value
    calls := sp.calls ++ [.updateMetadata key (coerce value)] }

/-- Interpret a list of cached message values as `ChatMessage` objects, as
the conversion loop `[m.to_openai_dict_format(...) for m in ...]` requires;
`none` models the `AttributeError` Python raises on a non-message element. -/
def allMsgs : List Value → Option (List ChatMessage)
  | [] => some []
  | .vmsg m :: rest => (allMsgs rest).map (fun ms => m :: ms)
  | _ :: _ => none

/-- Python `key.endswith(suffix)`, computed structurally on the character
lists so that concrete instances reduce definitionally. -/
def pyEndsWith (s suffix : String) : Bool :=
  suffix.data.isSuffixOf s.data

/-- The backend forwarding performed by `set_content_tag` once the
content-tracing gate has passed (lines 103-119): `.input`-suffixed keys with
a `messages` entry are converted to the wire format and sent as the span's
dedicated input, `.output`-suffixed keys with a `replies` entry likewise
(conversion only when every reply is a `ChatMessage`), and all other shapes
go through the same coercion as `set_tag`.  `none` models Python raising
before the cache assignment is reached (a `messages` entry that is not a
list of `ChatMessage`, or a non-list `replies` entry — both outside the
shapes the host framework sends). -/
def contentForwardCalls (coerce : Value → Value) (conv : ChatMessage → Value)
    (key : String) (value : Value) : Option (List BackendCall) :=
  if pyEndsWith key ".input" then
    if value.hasKey "messages" then
      match value.getKey "messages" with
      | some (.vlist ms) =>
          match allMsgs ms with
          | some msgs => some [.updateInput (.vlist (msgs.map conv))]
          | none => none
      | _ => none
    else some [.updateInput (coerce value)]
  else if pyEndsWith key ".output" then
    if value.hasKey "replies" then
      match value.getKey "replies" with
      | some (.vlist rs) =>
          match allMsgs rs with
          | some msgs => some [.updateOutput (.vlist (msgs.map conv))]
          | none => some [.updateOutput (.vlist rs)]
      | _ => none
    else some [.updateOutput (coerce value)]
  else some []

/-- `LangfuseSpan.set_content_tag` (lines 94-121).  Note the early return on
lines 101-102: when content tracing is disabled the method is a complete
no-op, including the cache update on line 121. -/
def LangfuseSpan.set_content_tag (enabled : Bool) (coerce : Value → Value)
    (conv : ChatMessage → Value) (sp : LangfuseSpan) (key : String)
    (value : Value) : Option LangfuseSpan :=
  if !enabled then some sp
  else
    match contentForwardCalls coerce conv key value with
    | some newCalls =>
        some { data := dictSet sp.data key value, calls := sp.calls ++ newCalls }
    | none => none

/-- `SpanContext` (lines 143-169): the frozen dataclass describing the span
to create next.  `parent_span` is the identity of the parent `LangfuseSpan`
(the adapter only ever calls `raw_span()` on it to nest children). -/
structure SpanContext where
  name : String
  operation_name : String
  component_type : Option String
  tags : List (String × Value)
  parent_span : Option Nat
  trace_name : String := "Haystack"
  public : Bool := false

/-- `SpanContext.__post_init__` (lines 171-186): fail-fast validation run by
the dataclass machinery at construction time.  `not self.<field>` on a string
is exactly the emptiness test.  `.error msg` models `raise ValueError(msg)`. -/
def SpanContext.post_init (c : SpanContext) : Except String Unit :=
  if c.name = "" then .error "Span name cannot be empty"
  else if c.operation_name = "" then .error "Operation name cannot be empty"
  else if c.trace_name = "" then .error "Trace name cannot be empty"
  else .ok ()

/-- The ambient correlation context `tracing_context_var.get({})`: a plain
dictionary read with `.get`, so absent keys yield `None`. -/
def TracingCtx : Type := List (String × Value)

/-- The backend object `create_span` wraps into the returned `LangfuseSpan`:
a root trace (carrying the merged ambient correlation fields), a generation
nested under a parent span, or a plain span nested under a parent span. -/
inductive CreatedSpan where
  | trace (name : String) (pub : Bool) (id user_id session_id tags version : Option Value)
  | generation (name : String) (parent : Nat)
  | span (name : String) (parent : Nat)

/-- The `RuntimeError` message raised by `DefaultSpanHandler.create_span`
when the handler was never initialized with a Langfuse client (lines 260-264). -/
def TRACER_NOT_INITIALIZED_MSG : String :=
  "Tracer is not initialized. Make sure the environment variable HAYSTACK_CONTENT_TRACING_ENABLED is set to true before importing Haystack."

/-- `DefaultSpanHandler.create_span` (lines 258-284).  `tracerInitialized`
models `self.tracer is not None`; `.error` models the raised `RuntimeError`.
The uninitialized check comes first; then a missing `parent_span` yields a
root trace merged with the ambient context, and otherwise the component kind
decides between a nested generation and a plain nested span. -/
def DefaultSpanHandler.create_span (tracerInitialized : Bool)
    (tracing_ctx : TracingCtx) (context : SpanContext) :
    Except String CreatedSpan :=
  if !tracerInitialized then .error TRACER_NOT_INITIALIZED_MSG
  else
    match context.parent_span with
    | none =>
        .ok (.trace context.trace_name context.public
          (dictGet tracing_ctx "trace_id") (dictGet tracing_ctx "user_id")
          (dictGet tracing_ctx "session_id") (dictGet tracing_ctx "tags")
          (dictGet tracing_ctx "version"))
    | some p =>
        if ctIn context.component_type ALL_SUPPORTED_GENERATORS then
          .ok (.generation context.name p)
        else
          .ok (.span context.name p)

/-- `collections.Counter(tool_names)` as iterated by `.items()`: keys in
first-insertion order, each with its occurrence count. -/
def counterItems (l : List String) : List (String × Nat) :=
  l.foldl
    (fun acc s =>
      if acc.any (fun p => p.1 == s) then
        acc.map (fun p => if p.1 == s then (p.1, p.2 + 1) else p)
      else acc ++ [(s, 1)])
    []

/-- The list comprehension on line 306: formats each counted tool name as
`name (xN)` when it was called more than once, else just `name`. -/
def formatNames (items : List (String × Nat)) : List String :=
  items.map (fun p =>
    if p.2 > 1 then p.1 ++ " (x" ++ toString p.2 ++ ")" else p.1)

/-- Lexicographic comparison of character lists by Unicode code point,
matching Python string `<`. -/
def lexLt : List Char → List Char → Bool
  | [], [] => false
  | [], _ :: _ => true
  | _ :: _, [] => false
  | a :: as, b :: bs =>
      if a.val.toNat < b.val.toNat then true
      else if b.val.toNat < a.val.toNat then false
      else lexLt as bs

/-- Python string comparison `a < b` (code-point lexicographic). -/
def strLt (a b : String) : Bool :=
  lexLt a.data b.data

/-- Insert a string into an already sorted list (code-point order, matching
Python string comparison). -/
def insertSorted (s : String) : List String → List String
  | [] => [s]
  | t :: rest => if strLt t s then t :: insertSorted s rest else s :: t :: rest

/-- Python `sorted` on a list of strings: stable ascending sort by Unicode
code points. -/
def pySorted : List String → List String
  | [] => []
  | s :: rest => insertSorted s (pySorted rest)

/-- Python `str` of a list of strings, as produced by the f-string
`f"... - \x7bsorted(formatted_names)\x7d"` on line 307: the list repr with
single-quoted elements.  (Tool names are plain identifiers, so the
quote-escaping corner of `repr` never triggers.) -/
def pyListRepr (l : List String) : String :=
  "[" ++ String.intercalate ", " (l.map (fun s => "\x27" ++ s ++ "\x27")) ++ "]"

/-- Python `str()` of a cached tag value as interpolated by an f-string.
Only strings occur as `haystack.component.name` tag values; the other
constructors fall back to their Python-like renderings (objects would render
as their `repr`, which the adapter never relies on). -/
def pyStr : Value → String
  | .vstr s => s
  | .vint n => toString n
  | .vbool true => "True"
  | .vbool false => "False"
  | .vnone => "None"
  | .vmsg _ => "ChatMessage"
  | .vlist _ => "list"
  | .vdict _ => "dict"

/-- The tool names collected by the loop on lines 296-300: for each element
of the cached `messages` list that is a `ChatMessage` with a truthy (i.e.
non-empty) `tool_calls` list, the names of all its tool calls, in order. -/
def collectToolNames (msgs : List Value) : List String :=
  msgs.foldl
    (fun acc it =>
      match it with
      | .vmsg m => if !m.tool_calls.isEmpty
          then acc ++ m.tool_calls.map ToolCall.tool_name else acc
      | _ => acc)
    []

/-- `span.get_data().get(_COMPONENT_INPUT_KEY, \x7b\x7d).get("messages", [])`
(line 297).  A cached component input that is not a dictionary, or a
`messages` entry that is not a list, would make Python raise before the
loop; those shapes do not occur and are mapped to the empty list. -/
def cachedInputMessages (data : List (String × Value)) : List Value :=
  match dictGet data COMPONENT_INPUT_KEY with
  | some (.vdict kvs) =>
      match dictGet kvs "messages" with
      | some (.vlist ms) => ms
      | _ => []
  | _ => []

/-- `span.get_data().get(_COMPONENT_OUTPUT_KEY, \x7b\x7d).get(key)`
(lines 310 and 315). -/
def componentOutputGet (data : List (String × Value)) (key : String) :
    Option Value :=
  match dictGet data COMPONENT_OUTPUT_KEY with
  | some (.vdict kvs) => dictGet kvs key
  | _ => none

/-- `meta[0].get("usage") or None` (line 312): a falsy usage value (absent,
`None`, empty dict, zero) becomes `None`. -/
def usageOrNone (m0 : Value) : Option Value :=
  match m0 with
  | .vdict kvs =>
      match dictGet kvs "usage" with
      | some u => if u.truthy then some u else none
      | none => none
  | _ => none

/-- `meta[0].get("model")` (line 312). -/
def modelGet (m0 : Value) : Option Value :=
  match m0 with
  | .vdict kvs => dictGet kvs "model"
  | _ => none

/-- `meta.get("usage") or None` on a `ChatMessage.meta` dictionary
(line 326). -/
def jUsageOrNone (meta : List (String × JVal)) : Option JVal :=
  match dictGet meta "usage" with
  | some u => if u.truthy then some u else none
  | none => none

/-- Lines 318-324: read `completion_start_time` from the first reply's
metadata; if truthy, try `datetime.fromisoformat` — on `ValueError` log the
failure and pass `None`; a falsy value skips the parse entirely and is
forwarded unchanged (`None` stays `None`, an empty string stays an empty
string).  A truthy non-string would raise an uncaught `TypeError` in Python;
that shape never occurs (the field is produced as an ISO string) and is
modelled as forwarded raw.  Returns the forwarded value and the log lines. -/
def computeCst (parse : String → Option Nat) (meta : List (String × JVal)) :
    CstOut × List String :=
  match dictGet meta "completion_start_time" with
  | none => (.pyNone, [])
  | some j =>
      if j.truthy then
        match j with
        | .jstr s =>
            match parse s with
            | some d => (.dt d, [])
            | none =>
                (.pyNone, ["Failed to parse completion_start_time: " ++ s])
        | _ => (.raw j, [])
      else
        match j with
        | .jnull => (.pyNone, [])
        | _ => (.raw j, [])

/-- Whether a backend call is a span rename (`update(name=...)`); only the
`ToolInvoker` rule of `handle` ever issues one. -/
def BackendCall.isUpdateName : BackendCall → Bool
  | .updateName _ => true
  | _ => false

/-- The backend calls and log lines produced by one `handle` invocation. -/
structure HandleOut where
  calls : List BackendCall
  logs : List String

/-- The pipeline-level rule of `handle` (lines 288-292): when the cache has
a non-`None` pipeline input entry, copy coerced pipeline input and output
onto the backend span's dedicated fields. -/
def pipelineLevelCalls (coerce : Value → Value)
    (data : List (String × Value)) : List BackendCall :=
  match dictGet data PIPELINE_INPUT_KEY with
  | some .vnone => []
  | some v =>
      [.updateInOut (coerce v) (coerce (dictGetD data PIPELINE_OUTPUT_KEY .vnone))]
  | none => []

/-- The `ToolInvoker` renaming rule of `handle` (lines 294-307). -/
def toolInvokerCalls (data : List (String × Value)) : List BackendCall :=
  let tool_names := collectToolNames (cachedInputMessages data)
  if tool_names.isEmpty then []
  else
    let tool_invoker_name :=
      match dictGet data COMPONENT_NAME_KEY with
      | some v => pyStr v
      | none => "ToolInvoker"
    let formatted_names := formatNames (counterItems tool_names)
    [.updateName (tool_invoker_name ++ " - " ++ pyListRepr (pySorted formatted_names))]

/-- The non-chat generator rule of `handle` (lines 309-312): when the cached
component output has a truthy `meta` list, update usage and model from its
first element. -/
def generatorCalls (data : List (String × Value)) : List BackendCall :=
  match componentOutputGet data "meta" with
  | some (.vlist (m0 :: _)) => [.updateUsageModel (usageOrNone m0) (modelGet m0)]
  | _ => []

/-- The chat-generator rule of `handle` (lines 314-329): when the cached
component output has a truthy `replies` list, read the first reply's
metadata and update usage, model and the parsed `completion_start_time`. -/
def chatGeneratorOut (parse : String → Option Nat)
    (data : List (String × Value)) : List BackendCall × List String :=
  match componentOutputGet data "replies" with
  | some (.vlist (.vmsg m :: _)) =>
      let meta := m.meta
      let cst := computeCst parse meta
      ([.updateGeneration (jUsageOrNone meta) (dictGet meta "model") cst.1], cst.2)
  | _ => ([], [])

/-- `DefaultSpanHandler.handle` (lines 286-329): the four enrichment rules
applied in program order to the span's cached data. -/
def DefaultSpanHandler.handle (coerce : Value → Value)
    (parse : String → Option Nat) (data : List (String × Value))
    (component_type : Option String) : HandleOut :=
  let p := pipelineLevelCalls coerce data
  let t := if component_type == some "ToolInvoker" then toolInvokerCalls data else []
  let g := if ctIn component_type SUPPORTED_GENERATORS then generatorCalls data else []
  let c := if ctIn component_type SUPPORTED_CHAT_GENERATORS
    then chatGeneratorOut parse data else ([], [])
  { calls := p ++ t ++ g ++ c.1, logs := c.2 }

/-- Outcome of the wrapped operation body inside a `trace` scope: it either
returns normally or raises exception `e` (exceptions identified by number). -/
inductive BodyResult where
  | ok
  | exn (e : Nat)

/-- What the caller of `LangfuseTracer.trace` observes when the scope exits:
normal completion, the body's exception re-propagated after cleanup, a
`ValueError` from `SpanContext.__post_init__`, or the handler's
configuration `RuntimeError` from `create_span`. -/
inductive TraceResult where
  | ok
  | bodyExn (e : Nat)
  | validationError (msg : String)
  | configError (msg : String)

/-- The observable state when a `trace` scope exits: the tracer's span stack
`self._context` (top element first; Python appends to and pops from the end
of the list), the outcome seen by the caller, the warnings logged during
cleanup, and whether `flush` was invoked. -/
structure TraceRunOut where
  stack : List Nat
  result : TraceResult
  logs : List String
  flushed : Bool

/-- `span_name = tags.get(_COMPONENT_NAME_KEY, operation_name)` (line 374).
Component name tags are strings; other shapes do not occur. -/
def spanNameOf (tags : List (String × Value)) (operation_name : String) : String :=
  match dictGet tags COMPONENT_NAME_KEY with
  | some (.vstr s) => s
  | _ => operation_name

/-- `component_type = tags.get(_COMPONENT_TYPE_KEY)` (line 375).  Component
type tags are strings; other shapes do not occur. -/
def componentTypeOf (tags : List (String × Value)) : Option String :=
  match dictGet tags COMPONENT_TYPE_KEY with
  | some (.vstr s) => some s
  | _ => none

/-- The `SpanContext` built on lines 378-388: name and component type are
derived from the tags, the parent defaults to the current stack top
(`parent_span or self.current_span()`), and trace name and visibility come
from the tracer's own configuration. -/
def mkSpanContext (tracerName : String) (tracerPublic : Bool)
    (stack : List Nat) (operation_name : String)
    (tags : List (String × Value)) (parent_span : Option Nat) : SpanContext :=
  { name := spanNameOf tags operation_name
    operation_name := operation_name
    component_type := componentTypeOf tags
    tags := tags
    parent_span := parent_span.orElse (fun _ => stack.head?)
    trace_name := tracerName
    public := tracerPublic }

/-- `LangfuseTracer.trace` (lines 369-422) as a state transformer on the
span stack.  Parameters beyond the tracer's own state:
* `createSpan` — the pluggable handler's `create_span`, returning the new
  span's identity or the raised configuration error;
* `body` — the wrapped operation: a function from the stack as the scope
  hands it over (new span pushed) to the stack at scope exit plus its
  outcome, covering arbitrary balanced or unbalanced nested `trace` calls;
* `cleanupRaises` — whether `handler.handle` or the backend `end()` call
  raises during the cleanup block (lines 400-414); such an exception is
  caught and logged, never re-raised.
The `finally` on lines 415-419 pops the stack only when its top is still the
span pushed by this scope; backend mutation calls (`set_tags` forwarding,
`end`, `flush`) are effects on the opaque backend and raise nothing
themselves. -/
def runTrace (tracerName : String) (tracerPublic : Bool) (enforceFlush : Bool)
    (createSpan : SpanContext → Except String Nat) (stack0 : List Nat)
    (operation_name : String) (tags : List (String × Value))
    (parent_span : Option Nat) (body : List Nat → List Nat × BodyResult)
    (cleanupRaises : Bool) : TraceRunOut :=
  let ctx := mkSpanContext tracerName tracerPublic stack0 operation_name tags parent_span
  match ctx.post_init with
  | .error m => ⟨stack0, .validationError m, [], false⟩
  | .ok _ =>
      match createSpan ctx with
      | .error m => ⟨stack0, .configError m, [], false⟩
      | .ok span =>
          let stack1 := span :: stack0
          let bodyOut := body stack1
          let cleanupLogs :=
            if cleanupRaises then
              ["Error during span cleanup for " ++ operation_name] else []
          let stack2 :=
            match bodyOut.1 with
            | [] => bodyOut.1
            | top :: rest => if top = span then rest else bodyOut.1
          let result :=
            match bodyOut.2 with
            | .ok => TraceResult.ok
            | .exn e => TraceResult.bodyExn e
          ⟨stack2, result, cleanupLogs, enforceFlush⟩

/-! ## Helper lemmas -/

theorem dictGet_dictSet_self {α : Type} (d : List (String × α)) (k : String)
    (v : α) : dictGet (dictSet d k v) k = some v := by
  induction d with
  | nil => simp [dictSet, dictGet]
  | cons p rest ih =>
      obtain ⟨k', w⟩ := p
      by_cases h : k' = k
      · simp [dictSet, h, dictGet]
      · simp [dictSet, h, dictGet, ih]

theorem set_content_tag_disabled_noop (coerce : Value → Value)
    (conv : ChatMessage → Value) (sp : LangfuseSpan) (key : String)
    (value : Value) :
    LangfuseSpan.set_content_tag false coerce conv sp key value = some sp := rfl

theorem set_content_tag_enabled_data (coerce : Value → Value)
    (conv : ChatMessage → Value) (sp : LangfuseSpan) (key : String)
    (value : Value) (sp' : LangfuseSpan)
    (h : LangfuseSpan.set_content_tag true coerce conv sp key value = some sp') :
    sp'.data = dictSet sp.data key value := by
  cases hf : contentForwardCalls coerce conv key value with
  | some newCalls =>
      simp [LangfuseSpan.set_content_tag, hf] at h
      subst h
      rfl
  | none =>
      simp [LangfuseSpan.set_content_tag, hf] at h

theorem pipelineLevelCalls_no_rename (coerce : Value → Value)
    (data : List (String × Value)) :
    ((pipelineLevelCalls coerce data).all fun c => !c.isUpdateName) = true := by
  unfold pipelineLevelCalls
  split <;> simp [BackendCall.isUpdateName]

theorem generatorCalls_no_rename (data : List (String × Value)) :
    ((generatorCalls data).all fun c => !c.isUpdateName) = true := by
  unfold generatorCalls
  split <;> simp [BackendCall.isUpdateName]

theorem chatGeneratorOut_no_rename (parse : String → Option Nat)
    (data : List (String × Value)) :
    ((chatGeneratorOut parse data).1.all fun c => !c.isUpdateName) = true := by
  unfold chatGeneratorOut
  split <;> simp [BackendCall.isUpdateName]

/-! ## Claim theorems -/

/-- C4: `SpanContext` construction succeeds exactly when `name`,
`operation_name` and `trace_name` are all non-empty, and fails with a
`ValueError` (never a silent default) as soon as any of the three is
empty. -/
theorem spanContext_validation (c : SpanContext) :
    (c.post_init = .ok () ↔
      (c.name ≠ "" ∧ c.operation_name ≠ "" ∧ c.trace_name ≠ "")) ∧
    ((c.name = "" ∨ c.operation_name = "" ∨ c.trace_name = "") →
      ∃ m, c.post_init = .error m) := by
  unfold SpanContext.post_init
  refine ⟨?_, ?_⟩
  · constructor
    · intro h
      by_cases h1 : c.name = "" <;> by_cases h2 : c.operation_name = "" <;>
        by_cases h3 : c.trace_name = "" <;> simp_all
    · intro ⟨h1, h2, h3⟩
      simp [h1, h2, h3]
  · intro h
    rcases h with h | h | h
    · exact ⟨"Span name cannot be empty", by simp [h]⟩
    · by_cases h1 : c.name = ""
      · exact ⟨"Span name cannot be empty", by simp [h1]⟩
      · exact ⟨"Operation name cannot be empty", by simp [h1, h]⟩
    · by_cases h1 : c.name = ""
      · exact ⟨"Span name cannot be empty", by simp [h1]⟩
      · by_cases h2 : c.operation_name = ""
        · exact ⟨"Operation name cannot be empty", by simp [h1, h2]⟩
        · exact ⟨"Trace name cannot be empty", by simp [h1, h2, h]⟩

/-- Witness for C4: a fully populated context validates, an empty-name
context raises. -/
theorem spanContext_validation_witness :
    SpanContext.post_init ⟨"comp", "haystack.component.run", none, [], none, "Haystack", false⟩ = .ok () ∧
    (∃ m, SpanContext.post_init ⟨"", "haystack.component.run", none, [], none, "Haystack", false⟩ = .error m) := by
  constructor
  · exact (spanContext_validation _).1.mpr (by simp)
  · exact (spanContext_validation _).2 (Or.inl rfl)

/-- C10: with an uninitialized backend client, `DefaultSpanHandler.create_span`
raises the configuration `RuntimeError` for every `SpanContext` — parentless
or not — because the initialization check precedes the root-versus-nested
branching. -/
theorem create_span_uninitialized_always_raises (tctx : TracingCtx)
    (c : SpanContext) :
    DefaultSpanHandler.create_span false tctx c = .error TRACER_NOT_INITIALIZED_MSG := rfl

/-- C5: a parentless context always yields a root trace named
`trace_name` with the context's visibility, whatever the component kind; a
context with a parent yields a generation for registered generator kinds and
a plain nested span otherwise. -/
theorem create_span_root_precedence (tctx : TracingCtx) (c : SpanContext) :
    (c.parent_span = none →
      DefaultSpanHandler.create_span true tctx c =
        .ok (.trace c.trace_name c.public (dictGet tctx "trace_id")
          (dictGet tctx "user_id") (dictGet tctx "session_id")
          (dictGet tctx "tags") (dictGet tctx "version"))) ∧
    (∀ p, c.parent_span = some p →
      ctIn c.component_type ALL_SUPPORTED_GENERATORS = true →
      DefaultSpanHandler.create_span true tctx c = .ok (.generation c.name p)) ∧
    (∀ p, c.parent_span = some p →
      ctIn c.component_type ALL_SUPPORTED_GENERATORS = false →
      DefaultSpanHandler.create_span true tctx c = .ok (.span c.name p)) := by
  refine ⟨?_, ?_, ?_⟩
  · intro h
    simp [DefaultSpanHandler.create_span, h]
  · intro p hp hgen
    simp [DefaultSpanHandler.create_span, hp, hgen]
  · intro p hp hgen
    simp [DefaultSpanHandler.create_span, hp, hgen]

/-- Witness for C5: a parentless context whose component kind is the
registered generator kind `OpenAIGenerator` still produces a root trace, and
the same kind under a parent produces a generation. -/
theorem create_span_root_precedence_witness :
    DefaultSpanHandler.create_span true []
      ⟨"gen", "haystack.component.run", some "OpenAIGenerator", [], none, "Haystack", false⟩ =
      .ok (.trace "Haystack" false none none none none none) ∧
    DefaultSpanHandler.create_span true []
      ⟨"gen", "haystack.component.run", some "OpenAIGenerator", [], some 1, "Haystack", false⟩ =
      .ok (.generation "gen" 1) := by
  constructor
  · exact (create_span_root_precedence [] _).1 rfl
  · exact (create_span_root_precedence [] _).2.1 1 rfl (by decide)

/-- C6: the ambient correlation context is consumed only by root-trace
creation: with a parent span present the result of `create_span` is
independent of the ambient context, while a parentless context merges the
ambient `trace_id`, `user_id`, `session_id`, `tags` and `version` into the
created trace. -/
theorem ambient_context_only_for_root :
    (∀ (tctx tctx' : TracingCtx) (c : SpanContext) (p : Nat),
      c.parent_span = some p →
      DefaultSpanHandler.create_span true tctx c =
        DefaultSpanHandler.create_span true tctx' c) ∧
    (∀ (tctx : TracingCtx) (c : SpanContext), c.parent_span = none →
      DefaultSpanHandler.create_span true tctx c =
        .ok (.trace c.trace_name c.public (dictGet tctx "trace_id")
          (dictGet tctx "user_id") (dictGet tctx "session_id")
          (dictGet tctx "tags") (dictGet tctx "version"))) := by
  constructor
  · intro tctx tctx' c p hp
    simp [DefaultSpanHandler.create_span, hp]
  · intro tctx c h
    simp [DefaultSpanHandler.create_span, h]

/-- Witness for C6: two different ambient contexts produce the same nested
span, and a parentless creation picks up the ambient `trace_id`. -/
theorem ambient_context_only_for_root_witness :
    DefaultSpanHandler.create_span true [("trace_id", Value.vstr "t1")]
      ⟨"c", "haystack.component.run", none, [], some 4, "Haystack", false⟩ =
      DefaultSpanHandler.create_span true []
        ⟨"c", "haystack.component.run", none, [], some 4, "Haystack", false⟩ ∧
    DefaultSpanHandler.create_span true [("trace_id", Value.vstr "t1")]
      ⟨"c", "haystack.component.run", none, [], none, "Haystack", false⟩ =
      .ok (.trace "Haystack" false (some (Value.vstr "t1")) none none none none) := by
  constructor
  · exact ambient_context_only_for_root.1 _ [] _ 4 rfl
  · exact ambient_context_only_for_root.2 _ _ rfl

/-- C1 counterexample: with content tracing disabled, `set_content_tag`
leaves the cache untouched (the early return on lines 101-102 precedes the
cache write on line 121), so two runs differing only in the flag produce
different caches. -/
theorem set_content_tag_cache_depends_on_flag :
    (LangfuseSpan.set_content_tag false id (fun _ => Value.vnone) ⟨[], []⟩
        "haystack.component.input" (.vdict [])).map LangfuseSpan.data =
      some [] ∧
    (LangfuseSpan.set_content_tag true id (fun _ => Value.vnone) ⟨[], []⟩
        "haystack.component.input" (.vdict [])).map LangfuseSpan.data =
      some [("haystack.component.input", Value.vdict [])] ∧
    some ([] : List (String × Value)) ≠
      some [("haystack.component.input", Value.vdict [])] := by
  refine ⟨rfl, rfl, ?_⟩
  simp

/-- C1 (amended): `set_content_tag` updates the cache with the raw value
only when the content-tracing flag is enabled; when disabled it is a
complete no-op, on the cache as much as on the backend. -/
theorem set_content_tag_cache_gated_by_flag (coerce : Value → Value)
    (conv : ChatMessage → Value) (sp : LangfuseSpan) (key : String)
    (value : Value) :
    (∀ sp', LangfuseSpan.set_content_tag true coerce conv sp key value = some sp' →
      sp'.data = dictSet sp.data key value) ∧
    LangfuseSpan.set_content_tag false coerce conv sp key value = some sp :=
  ⟨fun sp' h => set_content_tag_enabled_data coerce conv sp key value sp' h,
   set_content_tag_disabled_noop coerce conv sp key value⟩

/-- Witness for the amended C1: both its enabled and disabled halves at a
concrete span and tag. -/
theorem set_content_tag_cache_gated_by_flag_witness :
    ([("k.input", Value.vdict [])] : List (String × Value)) =
      dictSet [] "k.input" (.vdict []) ∧
    LangfuseSpan.set_content_tag false id (fun _ => Value.vnone) ⟨[], []⟩
      "k.input" (.vdict []) = some ⟨[], []⟩ := by
  have h := set_content_tag_cache_gated_by_flag id (fun _ => Value.vnone)
    ⟨[], []⟩ "k.input" (.vdict [])
  exact ⟨h.1 ⟨[("k.input", .vdict [])], [.updateInput (.vdict [])]⟩ rfl, h.2⟩

/-- C9 counterexample: with content tracing disabled, two successive
`set_content_tag` calls on the same key leave the cache holding the stale
pre-existing value, not the latest one. -/
theorem set_content_tag_disabled_stale_cache :
    (LangfuseSpan.set_content_tag false id (fun _ => Value.vnone)
        ⟨[("k.input", Value.vint 1)], []⟩ "k.input" (Value.vint 2)).bind
      (fun sp1 => LangfuseSpan.set_content_tag false id (fun _ => Value.vnone)
        sp1 "k.input" (Value.vint 3)) =
      some ⟨[("k.input", Value.vint 1)], []⟩ ∧
    dictGet [("k.input", Value.vint 1)] "k.input" = some (Value.vint 1) ∧
    Value.vint 1 ≠ Value.vint 3 := by
  refine ⟨rfl, rfl, ?_⟩
  simp

/-- C9 (amended): `set_tag` records the raw pre-coercion value in the cache
and forwards exactly one coerced metadata update to the backend; repeated
`set_tag` on one key leaves the cache holding the latest value;
`set_content_tag` behaves the same on the cache when content tracing is
enabled, and when disabled leaves the span entirely unchanged. -/
theorem set_tag_cache_semantics (coerce : Value → Value)
    (conv : ChatMessage → Value) (sp : LangfuseSpan) (k : String)
    (v v' : Value) :
    dictGet (sp.set_tag coerce k v).data k = some v ∧
    (sp.set_tag coerce k v).calls = sp.calls ++ [.updateMetadata k (coerce v)] ∧
    dictGet ((sp.set_tag coerce k v).set_tag coerce k v').data k = some v' ∧
    (∀ sp1 sp2, LangfuseSpan.set_content_tag true coerce conv sp k v = some sp1 →
      LangfuseSpan.set_content_tag true coerce conv sp1 k v' = some sp2 →
      dictGet sp2.data k = some v') ∧
    LangfuseSpan.set_content_tag false coerce conv sp k v = some sp := by
  refine ⟨?_, rfl, ?_, ?_, set_content_tag_disabled_noop coerce conv sp k v⟩
  · exact dictGet_dictSet_self sp.data k v
  · exact dictGet_dictSet_self _ k v'
  · intro sp1 sp2 h1 h2
    rw [set_content_tag_enabled_data coerce conv sp1 k v' sp2 h2]
    exact dictGet_dictSet_self _ k v'

/-- Witness for the amended C9 at concrete spans and values. -/
theorem set_tag_cache_semantics_witness :
    dictGet (LangfuseSpan.set_tag id ⟨[], []⟩ "k" (Value.vint 1)).data "k" =
      some (Value.vint 1) ∧
    dictGet ((LangfuseSpan.set_tag id ⟨[], []⟩ "k" (Value.vint 1)).set_tag
      id "k" (Value.vint 2)).data "k" = some (Value.vint 2) ∧
    dictGet (LangfuseSpan.data ⟨[("k", Value.vint 2)], []⟩) "k" =
      some (Value.vint 2) := by
  have h := set_tag_cache_semantics id (fun _ => Value.vnone) ⟨[], []⟩ "k"
    (Value.vint 1) (Value.vint 2)
  exact ⟨h.1, h.2.2.1, h.2.2.2.1 ⟨[("k", .vint 1)], []⟩ ⟨[("k", .vint 2)], []⟩ rfl rfl⟩

/-- C2: after any `trace` scope whose body leaves the stack exactly as it
received it (as every balanced nesting of `trace` calls does), the span
stack is restored to its pre-entry state — net zero growth — whether the
body returned normally or raised, and a body exception propagates to the
caller after cleanup. -/
theorem trace_scope_restores_stack (tracerName : String)
    (tracerPublic enforceFlush : Bool)
    (createSpan : SpanContext → Except String Nat) (stack0 : List Nat)
    (operation_name : String) (tags : List (String × Value))
    (parent_span : Option Nat) (body : List Nat → List Nat × BodyResult)
    (cleanupRaises : Bool) (span : Nat) (r : BodyResult)
    (hpost : (mkSpanContext tracerName tracerPublic stack0 operation_name
      tags parent_span).post_init = .ok ())
    (hcreate : createSpan (mkSpanContext tracerName tracerPublic stack0
      operation_name tags parent_span) = .ok span)
    (hbody : body (span :: stack0) = (span :: stack0, r)) :
    (runTrace tracerName tracerPublic enforceFlush createSpan stack0
      operation_name tags parent_span body cleanupRaises).stack = stack0 ∧
    (runTrace tracerName tracerPublic enforceFlush createSpan stack0
      operation_name tags parent_span body cleanupRaises).result =
      (match r with
       | .ok => TraceResult.ok
       | .exn e => TraceResult.bodyExn e) := by
  simp only [runTrace, hpost, hcreate, hbody]
  cases r <;> simp

/-- Witness for C2: a concrete scope whose body raises exception 5 exits
with the original one-element stack and propagates the exception. -/
theorem trace_scope_restores_stack_witness :
    (runTrace "Haystack" false true (fun _ => .ok 7) [3]
      "haystack.pipeline.run" [] none (fun s => (s, .exn 5)) true).stack = [3] ∧
    (runTrace "Haystack" false true (fun _ => .ok 7) [3]
      "haystack.pipeline.run" [] none (fun s => (s, .exn 5)) true).result =
      .bodyExn 5 := by
  have h := trace_scope_restores_stack "Haystack" false true (fun _ => .ok 7)
    [3] "haystack.pipeline.run" [] none (fun s => (s, .exn 5)) true 7
    (.exn 5) rfl rfl rfl
  exact ⟨h.1, h.2⟩

/-- C3: an exception raised in the cleanup phase of a `trace` scope (inside
`handler.handle` or the backend `end()` call) is swallowed: the resulting
stack and the caller-visible outcome are exactly those of a clean run, a
warning naming the operation is logged, the outcome can only be the body's
own (normal or its exception, never a cleanup failure), and the defensive
stack pop still happens. -/
theorem trace_cleanup_exceptions_swallowed (tracerName : String)
    (tracerPublic enforceFlush : Bool)
    (createSpan : SpanContext → Except String Nat) (stack0 : List Nat)
    (operation_name : String) (tags : List (String × Value))
    (parent_span : Option Nat) (body : List Nat → List Nat × BodyResult)
    (span : Nat)
    (hpost : (mkSpanContext tracerName tracerPublic stack0 operation_name
      tags parent_span).post_init = .ok ())
    (hcreate : createSpan (mkSpanContext tracerName tracerPublic stack0
      operation_name tags parent_span) = .ok span) :
    (runTrace tracerName tracerPublic enforceFlush createSpan stack0
      operation_name tags parent_span body true).stack =
      (runTrace tracerName tracerPublic enforceFlush createSpan stack0
        operation_name tags parent_span body false).stack ∧
    (runTrace tracerName tracerPublic enforceFlush createSpan stack0
      operation_name tags parent_span body true).result =
      (runTrace tracerName tracerPublic enforceFlush createSpan stack0
        operation_name tags parent_span body false).result ∧
    (runTrace tracerName tracerPublic enforceFlush createSpan stack0
      operation_name tags parent_span body true).logs =
      ["Error during span cleanup for " ++ operation_name] ∧
    ((runTrace tracerName tracerPublic enforceFlush createSpan stack0
        operation_name tags parent_span body true).result = TraceResult.ok ∨
      ∃ e, (runTrace tracerName tracerPublic enforceFlush createSpan stack0
        operation_name tags parent_span body true).result =
          TraceResult.bodyExn e) ∧
    (∀ r, body (span :: stack0) = (span :: stack0, r) →
      (runTrace tracerName tracerPublic enforceFlush createSpan stack0
        operation_name tags parent_span body true).stack = stack0) := by
  refine ⟨?_, ?_, ?_, ?_, ?_⟩
  · simp only [runTrace, hpost, hcreate]
  · simp only [runTrace, hpost, hcreate]
  · simp only [runTrace, hpost, hcreate]
    simp
  · simp only [runTrace, hpost, hcreate]
    cases hb : (body (span :: stack0)).2 with
    | ok => exact Or.inl (by simp [hb])
    | exn e => exact Or.inr ⟨e, by simp [hb]⟩
  · intro r hb
    simp only [runTrace, hpost, hcreate, hb]
    simp

/-- Witness for C3: a concrete scope with a failing cleanup behaves exactly
like the clean run and logs the warning. -/
theorem trace_cleanup_exceptions_swallowed_witness :
    (runTrace "Haystack" false true (fun _ => .ok 7) []
      "haystack.pipeline.run" [] none (fun s => (s, .ok)) true).stack =
      (runTrace "Haystack" false true (fun _ => .ok 7) []
        "haystack.pipeline.run" [] none (fun s => (s, .ok)) false).stack ∧
    (runTrace "Haystack" false true (fun _ => .ok 7) []
      "haystack.pipeline.run" [] none (fun s => (s, .ok)) true).logs =
      ["Error during span cleanup for " ++ "haystack.pipeline.run"] ∧
    (runTrace "Haystack" false true (fun _ => .ok 7) []
      "haystack.pipeline.run" [] none (fun s => (s, .ok)) true).stack = [] := by
  have h := trace_cleanup_exceptions_swallowed "Haystack" false true
    (fun _ => .ok 7) [] "haystack.pipeline.run" [] none (fun s => (s, .ok))
    7 rfl rfl
  exact ⟨h.1, h.2.2.1, h.2.2.2.2 .ok rfl⟩

/-- C7: for every `ToolInvoker` span whose cached input messages carry at
least one tool call, `handle` issues exactly one rename of the backend span
to `<original-name> - [<sorted, deduplicated tool (xN) list>]`, where the
base name is the cached component-name tag when present and the literal
`ToolInvoker` otherwise; when no tool call is found, no rename call is
issued at all.  The two concrete instances pin down the formatting: tool
calls `search`, `search`, `lookup` yield the label list
`[\x27lookup\x27, \x27search (x2)\x27]` under either base name. -/
theorem tool_invoker_renaming :
    (∀ (coerce : Value → Value) (parse : String → Option Nat)
      (data : List (String × Value)),
      collectToolNames (cachedInputMessages data) ≠ [] →
      (DefaultSpanHandler.handle coerce parse data
        (some "ToolInvoker")).calls =
        pipelineLevelCalls coerce data ++
          [.updateName ((match dictGet data COMPONENT_NAME_KEY with
              | some v => pyStr v
              | none => "ToolInvoker") ++ " - " ++
            pyListRepr (pySorted (formatNames (counterItems
              (collectToolNames (cachedInputMessages data))))))]) ∧
    (∀ (coerce : Value → Value) (parse : String → Option Nat)
      (data : List (String × Value)),
      collectToolNames (cachedInputMessages data) = [] →
      ((DefaultSpanHandler.handle coerce parse data
        (some "ToolInvoker")).calls.all fun c => !c.isUpdateName) = true) ∧
    (DefaultSpanHandler.handle id (fun _ => none)
        [(COMPONENT_INPUT_KEY, .vdict [("messages",
          .vlist [.vmsg ⟨[], [⟨"search"⟩, ⟨"search"⟩, ⟨"lookup"⟩]⟩])])]
        (some "ToolInvoker")).calls =
      [.updateName "ToolInvoker - [\x27lookup\x27, \x27search (x2)\x27]"] ∧
    (DefaultSpanHandler.handle id (fun _ => none)
        [(COMPONENT_NAME_KEY, Value.vstr "my_tool_invoker"),
         (COMPONENT_INPUT_KEY, .vdict [("messages",
          .vlist [.vmsg ⟨[], [⟨"search"⟩, ⟨"search"⟩, ⟨"lookup"⟩]⟩])])]
        (some "ToolInvoker")).calls =
      [.updateName "my_tool_invoker - [\x27lookup\x27, \x27search (x2)\x27]"] := by
  refine ⟨?_, ?_, rfl, rfl⟩
  · intro coerce parse data h
    have hg : ctIn (some "ToolInvoker") SUPPORTED_GENERATORS = false := rfl
    have hc : ctIn (some "ToolInvoker") SUPPORTED_CHAT_GENERATORS = false := rfl
    have ht : toolInvokerCalls data =
        [.updateName ((match dictGet data COMPONENT_NAME_KEY with
            | some v => pyStr v
            | none => "ToolInvoker") ++ " - " ++
          pyListRepr (pySorted (formatNames (counterItems
            (collectToolNames (cachedInputMessages data))))))] := by
      unfold toolInvokerCalls
      cases hn : collectToolNames (cachedInputMessages data) with
      | nil => exact absurd hn h
      | cons a l => simp [hn]
    simp [DefaultSpanHandler.handle, hg, hc, ht]
  · intro coerce parse data h
    have ht : toolInvokerCalls data = [] := by
      unfold toolInvokerCalls
      simp [h]
    have hg : ctIn (some "ToolInvoker") SUPPORTED_GENERATORS = false := rfl
    have hc : ctIn (some "ToolInvoker") SUPPORTED_CHAT_GENERATORS = false := rfl
    simp [DefaultSpanHandler.handle, ht, hg, hc, List.all_append,
      pipelineLevelCalls_no_rename]

/-- Witness for C7: the universal rename applied at a concrete span whose
component-name tag is present, and the no-rename half at a concrete span
with pipeline data but no tool calls. -/
theorem tool_invoker_renaming_witness :
    (DefaultSpanHandler.handle id (fun _ => none)
        [(COMPONENT_NAME_KEY, Value.vstr "my_tool_invoker"),
         (COMPONENT_INPUT_KEY, .vdict [("messages",
          .vlist [.vmsg ⟨[], [⟨"search"⟩, ⟨"search"⟩, ⟨"lookup"⟩]⟩])])]
        (some "ToolInvoker")).calls =
      pipelineLevelCalls id
        [(COMPONENT_NAME_KEY, Value.vstr "my_tool_invoker"),
         (COMPONENT_INPUT_KEY, .vdict [("messages",
          .vlist [.vmsg ⟨[], [⟨"search"⟩, ⟨"search"⟩, ⟨"lookup"⟩]⟩])])] ++
        [.updateName "my_tool_invoker - [\x27lookup\x27, \x27search (x2)\x27]"] ∧
    ((DefaultSpanHandler.handle id (fun _ => none)
      [(PIPELINE_INPUT_KEY, Value.vstr "q")]
      (some "ToolInvoker")).calls.all fun c => !c.isUpdateName) = true := by
  constructor
  · exact tool_invoker_renaming.1 id (fun _ => none)
      [(COMPONENT_NAME_KEY, Value.vstr "my_tool_invoker"),
       (COMPONENT_INPUT_KEY, .vdict [("messages",
        .vlist [.vmsg ⟨[], [⟨"search"⟩, ⟨"search"⟩, ⟨"lookup"⟩]⟩])])]
      (by decide)
  · exact tool_invoker_renaming.2.1 id (fun _ => none)
      [(PIPELINE_INPUT_KEY, Value.vstr "q")] rfl

/-- C8 counterexample: an empty `completion_start_time` string is falsy, so
`handle` skips the parse entirely (lines 319-324) and forwards the raw empty
string — not `None` — to the backend update, logging nothing; the claim as
stated is false for this unparsable string. -/
theorem chat_generator_empty_cst_forwarded_raw :
    DefaultSpanHandler.handle id (fun _ => none)
      [(COMPONENT_OUTPUT_KEY, .vdict [("replies", .vlist [.vmsg
        ⟨[("usage", .jdict [("total_tokens", .jint 42)]),
          ("model", .jstr "gpt-x"),
          ("completion_start_time", .jstr "")], []⟩])])]
      (some "OpenAIChatGenerator") =
      ⟨[.updateGeneration (some (.jdict [("total_tokens", .jint 42)]))
          (some (.jstr "gpt-x")) (.raw (.jstr ""))], []⟩ ∧
    CstOut.raw (.jstr "") ≠ CstOut.pyNone :=
  ⟨rfl, fun h => nomatch h⟩

/-- C8 (amended): for a chat-generator component kind whose first cached
reply carries a non-empty `completion_start_time` string that fails
ISO-8601 parsing, the backend update still receives the usage and model
fields with the timestamp passed as `None`, and the parse failure is
logged; no exception escapes `handle`.  (An empty string, being falsy, is
instead forwarded unchanged without a parse attempt or a log line.) -/
theorem chat_generator_unparsable_cst_absent (coerce : Value → Value)
    (parse : String → Option Nat) (data : List (String × Value)) (ct : String)
    (m : ChatMessage) (rest : List Value) (s : String)
    (hct : ctIn (some ct) SUPPORTED_CHAT_GENERATORS = true)
    (hreplies : componentOutputGet data "replies" =
      some (.vlist (.vmsg m :: rest)))
    (hcst : dictGet m.meta "completion_start_time" = some (.jstr s))
    (hs : s ≠ "")
    (hparse : parse s = none) :
    BackendCall.updateGeneration (jUsageOrNone m.meta)
      (dictGet m.meta "model") CstOut.pyNone ∈
      (DefaultSpanHandler.handle coerce parse data (some ct)).calls ∧
    ("Failed to parse completion_start_time: " ++ s) ∈
      (DefaultSpanHandler.handle coerce parse data (some ct)).logs := by
  have hcc : computeCst parse m.meta =
      (.pyNone, ["Failed to parse completion_start_time: " ++ s]) := by
    unfold computeCst
    rw [hcst]
    simp [JVal.truthy, hs, hparse]
  have hchat : chatGeneratorOut parse data =
      ([.updateGeneration (jUsageOrNone m.meta) (dictGet m.meta "model")
        .pyNone], ["Failed to parse completion_start_time: " ++ s]) := by
    unfold chatGeneratorOut
    rw [hreplies]
    simp [hcc]
  constructor
  · simp [DefaultSpanHandler.handle, hct, hchat, List.mem_append]
  · simp [DefaultSpanHandler.handle, hct, hchat]

/-- Witness for the amended C8 at a concrete unparsable timestamp. -/
theorem chat_generator_unparsable_cst_absent_witness :
    BackendCall.updateGeneration
        (jUsageOrNone [("usage", .jdict [("total_tokens", .jint 42)]),
          ("model", .jstr "gpt-x"),
          ("completion_start_time", .jstr "not-a-date")])
        (dictGet [("usage", JVal.jdict [("total_tokens", JVal.jint 42)]),
          ("model", JVal.jstr "gpt-x"),
          ("completion_start_time", JVal.jstr "not-a-date")] "model")
        CstOut.pyNone ∈
      (DefaultSpanHandler.handle id (fun _ => none)
        [(COMPONENT_OUTPUT_KEY, .vdict [("replies", .vlist [.vmsg
          ⟨[("usage", .jdict [("total_tokens", .jint 42)]),
            ("model", .jstr "gpt-x"),
            ("completion_start_time", .jstr "not-a-date")], []⟩])])]
        (some "OpenAIChatGenerator")).calls ∧
    ("Failed to parse completion_start_time: " ++ "not-a-date") ∈
      (DefaultSpanHandler.handle id (fun _ => none)
        [(COMPONENT_OUTPUT_KEY, .vdict [("replies", .vlist [.vmsg
          ⟨[("usage", .jdict [("total_tokens", .jint 42)]),
            ("model", .jstr "gpt-x"),
            ("completion_start_time", .jstr "not-a-date")], []⟩])])]
        (some "OpenAIChatGenerator")).logs :=
  chat_generator_unparsable_cst_absent id (fun _ => none)
    [(COMPONENT_OUTPUT_KEY, .vdict [("replies", .vlist [.vmsg
      ⟨[("usage", .jdict [("total_tokens", .jint 42)]),
        ("model", .jstr "gpt-x"),
        ("completion_start_time", .jstr "not-a-date")], []⟩])])]
    "OpenAIChatGenerator"
    ⟨[("usage", .jdict [("total_tokens", .jint 42)]),
      ("model", .jstr "gpt-x"),
      ("completion_start_time", .jstr "not-a-date")], []⟩
    [] "not-a-date" rfl rfl rfl (by decide) rfl

end LangfuseTracing
